import Mathlib

set_option maxHeartbeats 1000000

/-!
Shallow embedding of the PikaGirl clicker game engine (docs/script.js).

Numbers are embedded exactly: integer quantities as `Nat`, the crit-hit
probability as `ℚ`.  `Math.floor` applied to a product whose only
non-integer factor is a division by 100 (resp. by 2) is embedded as the
corresponding truncated natural division.  Timestamps (`Date.now()`)
are milliseconds as `Nat`, supplied explicitly.  The random source and
the `confirm()` gate are explicit boolean / numeric parameters.
-/

/-- The `state.daily` sub-record of the game state. -/
structure DailyState where
  active : Bool
  target : Nat
  rewardPct : Nat
  expiresAt : Nat
  claimedToday : Bool
deriving DecidableEq, Repr

/-- Achievement keys.  In the source an achievement is keyed by its full
message text; each distinct message corresponds to one constructor
applied to the data interpolated into the text, so key equality in the
source coincides with equality here. -/
inductive AchKey where
  | clickMilestone (who : String) (n : Nat)
  | autoMilestone (who : String) (n : Nat)
  | multMilestone (n : Nat)
  | critPct (pct : Nat)
  | prestigeMark (n : Nat)
  | timedStart
  | timedEnd (sc : Nat) (best : Nat)
  | dailyStarted
  | dailySuccess (pct : Nat)
  | boostEnd
  | manualSave
  | frenzy
deriving DecidableEq, Repr

/-- The mutable `state` object of docs/script.js (engine fields). -/
structure GameState where
  pseudo : String
  score : Nat
  totalClicks : Nat
  autoClickers : Nat
  autoClickCost : Nat
  multiplier : Nat
  multiplierCost : Nat
  critChance : ℚ
  critPower : Nat
  critChanceCost : Nat
  critPowerCost : Nat
  tempBoostActive : Bool
  tempBoostEnd : Nat
  tempBoostCost : Nat
  prestigeCount : Nat
  prestigeBonus : Nat
  prestigeCost : Nat
  lastClickTime : Nat
  bestTimed : Nat
  timedActive : Bool
  timedTimeLeft : Nat
  timedScore : Nat
  daily : DailyState
  theme : String
  soundOn : Bool
  musicOn : Bool
  achievementsUnlocked : List AchKey
deriving DecidableEq, Repr

/-- The initial `state` literal of docs/script.js (lines 32-66). -/
def initialState : GameState where
  pseudo := ""
  score := 0
  totalClicks := 0
  autoClickers := 0
  autoClickCost := 500
  multiplier := 1
  multiplierCost := 1000
  critChance := 1/50
  critPower := 5
  critChanceCost := 2000
  critPowerCost := 3000
  tempBoostActive := false
  tempBoostEnd := 0
  tempBoostCost := 300
  prestigeCount := 0
  prestigeBonus := 0
  prestigeCost := 20000
  lastClickTime := 0
  bestTimed := 0
  timedActive := false
  timedTimeLeft := 60
  timedScore := 0
  daily := ⟨false, 5000, 5, 0, false⟩
  theme := "normal"
  soundOn := true
  musicOn := false
  achievementsUnlocked := []

/-- `unlockAchievement(text)` (script.js lines 1462-1489): records the key
once, idempotently. -/
def unlockAchievement (k : AchKey) (s : GameState) : GameState :=
  if k ∈ s.achievementsUnlocked then s
  else { s with achievementsUnlocked := k :: s.achievementsUnlocked }

/-- The click gain of the main click handler (lines 1026-1032):
`gain = multiplier`, `*2` if boost, `*(1 + prestigeBonus/100)`,
`*critPower` on a crit, then `Math.floor`.  Exactly
`⌊m·b·(1 + p/100)·c⌋ = m·b·(100 + p)·c / 100` over the naturals. -/
def clickGain (s : GameState) (isCrit : Bool) : Nat :=
  s.multiplier * (if s.tempBoostActive then 2 else 1) * (100 + s.prestigeBonus)
    * (if isCrit then s.critPower else 1) / 100

/-- Click milestones (line 1495). -/
def clickMilestones : List Nat := [100, 1000, 10000, 100000, 1000000, 10000000]

/-- The milestone loop of `checkClickAchievements` (lines 1498-1502). -/
def milestonePass (s : GameState) : GameState :=
  clickMilestones.foldl
    (fun acc m =>
      if acc.totalClicks = m then unlockAchievement (AchKey.clickMilestone acc.pseudo m) acc
      else acc) s

/-- `checkClickAchievements()` (lines 1497-1506): milestone unlocks, then
in timed mode `timedScore += multiplier`. -/
def checkClickAchievements (s : GameState) : GameState :=
  let s1 := milestonePass s
  if s1.timedActive then { s1 with timedScore := s1.timedScore + s1.multiplier } else s1

/-- The main click handler (lines 1020-1107), engine effects only:
records `lastClickTime`, adds the floored gain to `score`, increments
`totalClicks`, then runs `checkClickAchievements`.  The crit draw
`Math.random() < critChance` is passed in as `isCrit`. -/
def clickStep (s : GameState) (isCrit : Bool) (now : Nat) : GameState :=
  let s1 := { s with lastClickTime := now }
  let s2 := { s1 with score := s1.score + clickGain s1 isCrit,
                      totalClicks := s1.totalClicks + 1 }
  checkClickAchievements s2

/-- `checkUpgradeAchievements()` (lines 1511-1518). -/
def checkUpgradeAchievements (s : GameState) : GameState :=
  let s1 :=
    if 0 < s.autoClickers ∧ s.autoClickers % 10 = 0 then
      unlockAchievement (AchKey.autoMilestone s.pseudo s.autoClickers) s
    else s
  if 0 < s1.multiplier ∧ s1.multiplier % 10 = 0 then
    unlockAchievement (AchKey.multMilestone s1.multiplier) s1
  else s1

/-- The five purchase kinds of the upgrade buttons. -/
inductive PKind where
  | autoClick
  | multiplierUp
  | critChanceUp
  | critPowerUp
  | tempBoost
deriving DecidableEq, Repr

/-- The current cost checked by each purchase handler. -/
def purchaseCost (k : PKind) (s : GameState) : Nat :=
  match k with
  | .autoClick => s.autoClickCost
  | .multiplierUp => s.multiplierCost
  | .critChanceUp => s.critChanceCost
  | .critPowerUp => s.critPowerCost
  | .tempBoost => s.tempBoostCost

/-- Percentage shown in the crit achievement text,
`(critChance*100).toFixed(0)` (line 1155); the chances reached by the
game are exact multiples of 1/100, where rounding and flooring agree. -/
def critPctOf (c : ℚ) : Nat := (c * 100).floor.toNat

/-- The five purchase click handlers (lines 1120-1195).  Each checks
`score >= cost`; on failure only a toast is shown (no state change).
`Math.floor(cost * 1.5)` is `3*cost/2` and `Math.floor(cost * 2)` is
`2*cost` over the naturals. -/
def purchase (k : PKind) (s : GameState) (now : Nat) : GameState :=
  match k with
  | .autoClick =>
    if s.autoClickCost ≤ s.score then
      checkUpgradeAchievements
        { s with score := s.score - s.autoClickCost,
                 autoClickers := s.autoClickers + 1,
                 autoClickCost := s.autoClickCost * 3 / 2 }
    else s
  | .multiplierUp =>
    if s.multiplierCost ≤ s.score then
      checkUpgradeAchievements
        { s with score := s.score - s.multiplierCost,
                 multiplier := s.multiplier + 1,
                 multiplierCost := s.multiplierCost * 2 }
    else s
  | .critChanceUp =>
    if s.critChanceCost ≤ s.score then
      let c := min (1/2 : ℚ) (s.critChance + 1/100)
      unlockAchievement (AchKey.critPct (critPctOf c))
        { s with score := s.score - s.critChanceCost,
                 critChance := c,
                 critChanceCost := s.critChanceCost * 2 }
    else s
  | .critPowerUp =>
    if s.critPowerCost ≤ s.score then
      { s with score := s.score - s.critPowerCost,
               critPower := min 50 (s.critPower + 5),
               critPowerCost := s.critPowerCost * 2 }
    else s
  | .tempBoost =>
    if s.tempBoostCost ≤ s.score then
      { s with score := s.score - s.tempBoostCost,
               tempBoostActive := true,
               tempBoostEnd := now + 30000 }
    else s

/-- The prestige click handler (lines 1209-1244).  The guard compares
against `state.prestigeCost || 20000`; the `confirm()` dialog is the
boolean `confirmOk`. -/
def doPrestige (s : GameState) (confirmOk : Bool) : GameState :=
  let gate := if s.prestigeCost = 0 then 20000 else s.prestigeCost
  if s.score < gate then s
  else if confirmOk = false then s
  else
    let s1 : GameState :=
      { s with score := s.score - s.prestigeCost,
               prestigeCount := s.prestigeCount + 1,
               prestigeBonus := s.prestigeBonus + 10,
               totalClicks := 0,
               autoClickers := 0,
               autoClickCost := 50,
               multiplier := 1,
               multiplierCost := 1000,
               critChance := 1/10,
               critPower := 10,
               critChanceCost := 2000,
               critPowerCost := 3000,
               tempBoostActive := false,
               tempBoostEnd := 0,
               prestigeCost := (if s.prestigeCost = 0 then 20000 else s.prestigeCost) * 2 }
    unlockAchievement (AchKey.prestigeMark s1.prestigeCount) s1

/-- The auto-click 1 Hz interval body (lines 1401-1418): passive gain if
`autoClickers > 0` (also into `timedScore` in timed mode), then boost
expiry when `now > tempBoostEnd`. -/
def autoTick (s : GameState) (now : Nat) : GameState :=
  let s1 :=
    if 0 < s.autoClickers then
      let g := s.autoClickers * s.multiplier * (if s.tempBoostActive then 2 else 1)
                 * (100 + s.prestigeBonus) / 100
      let s' := { s with score := s.score + g }
      if s'.timedActive then { s' with timedScore := s'.timedScore + g } else s'
    else s
  if s1.tempBoostActive ∧ s1.tempBoostEnd < now then
    unlockAchievement AchKey.boostEnd { s1 with tempBoostActive := false }
  else s1

/-- The daily-challenge 1 Hz interval body (lines 1975-2012). -/
def dailyTick (s : GameState) (now : Nat) : GameState :=
  if s.daily.active = false then s
  else if s.daily.target ≤ s.score ∧ s.daily.claimedToday = false then
    let ex := now + 600000
    unlockAchievement (AchKey.dailySuccess s.daily.rewardPct)
      { s with daily := { s.daily with claimedToday := true, active := false, expiresAt := ex },
               tempBoostActive := true,
               tempBoostEnd := ex }
  else if s.daily.expiresAt < now ∧ s.daily.claimedToday = false then
    { s with daily := { s.daily with active := false } }
  else s

/-- One firing of the timed-mode interval created by `startTimedBtn`
(lines 1314-1325): decrement, and at `timeLeft <= 0` finish and record
the best score.  Over `Nat`, `timeLeft - 1 <= 0` is `timeLeft <= 1`. -/
def timedTick (s : GameState) : GameState :=
  if s.timedActive then
    if s.timedTimeLeft ≤ 1 then
      unlockAchievement (AchKey.timedEnd s.timedScore (max s.bestTimed s.timedScore))
        { s with timedTimeLeft := s.timedTimeLeft - 1,
                 timedActive := false,
                 bestTimed := max s.bestTimed s.timedScore }
    else { s with timedTimeLeft := s.timedTimeLeft - 1 }
  else s

/-- The `startTimedBtn` handler (lines 1307-1312): no-op when already
active, else resets and activates a 60-second run. -/
def startTimed (s : GameState) : GameState :=
  if s.timedActive then s
  else unlockAchievement AchKey.timedStart
    { s with timedActive := true, timedTimeLeft := 60, timedScore := 0 }

/-- The regeneration branch of `ensureDaily` (lines 1928-1942): a fresh
challenge with `target = 3000 + ⌊random()*7000⌋` and
`rewardPct = 3 + ⌊random()*7⌋`; the random draws are passed in as
naturals reduced to the source ranges. -/
def ensureDailyNew (s : GameState) (r1 r2 : Nat) : GameState :=
  { s with daily := ⟨false, 3000 + r1 % 7000, 3 + r2 % 7, 0, false⟩ }

/-- The `startDailyBtn` handler (lines 1350-1384).  `newDay` is whether
the stored `dailyKey` differs from today (the `ensureDaily(false)` call
regenerates in that case); `startedToday` is whether the stored
`dailyStarted` key equals today. -/
def startDaily (s : GameState) (newDay : Bool) (r1 r2 : Nat) (startedToday : Bool)
    (now : Nat) : GameState :=
  let s0 := if newDay then ensureDailyNew s r1 r2 else s
  if startedToday then s0
  else if s0.daily.active then s0
  else if s0.daily.claimedToday then s0
  else
    unlockAchievement AchKey.dailyStarted
      { s0 with daily := { s0.daily with active := true, expiresAt := now + 600000 } }

/-- Every engine operation, for reachability over operation sequences. -/
inductive Op where
  | click (isCrit : Bool) (now : Nat)
  | buy (k : PKind) (now : Nat)
  | prestige (confirmOk : Bool)
  | autoT (now : Nat)
  | dailyT (now : Nat)
  | timedT
  | startT
  | startD (newDay : Bool) (r1 r2 : Nat) (startedToday : Bool) (now : Nat)
  | ensureD (r1 r2 : Nat)
deriving DecidableEq, Repr

/-- Interpretation of one operation. -/
def step (o : Op) (s : GameState) : GameState :=
  match o with
  | .click b t => clickStep s b t
  | .buy k t => purchase k s t
  | .prestige c => doPrestige s c
  | .autoT t => autoTick s t
  | .dailyT t => dailyTick s t
  | .timedT => timedTick s
  | .startT => startTimed s
  | .startD nd r1 r2 st t => startDaily s nd r1 r2 st t
  | .ensureD r1 r2 => ensureDailyNew s r1 r2

/-- Run a sequence of operations from a state. -/
def runOps (ops : List Op) (s : GameState) : GameState :=
  ops.foldl (fun a o => step o a) s

/-! ### Persistence: stored saves and `loadPersisted` -/

/-- A stored save as parsed from JSON: each engine field may be absent
(older saves), in which case `Object.assign` leaves the live field. -/
structure SaveData where
  pseudoF : Option String
  scoreF : Option Nat
  totalClicksF : Option Nat
  autoClickersF : Option Nat
  autoClickCostF : Option Nat
  multiplierF : Option Nat
  multiplierCostF : Option Nat
  critChanceF : Option ℚ
  critPowerF : Option Nat
  critChanceCostF : Option Nat
  critPowerCostF : Option Nat
  tempBoostActiveF : Option Bool
  tempBoostEndF : Option Nat
  tempBoostCostF : Option Nat
  prestigeCountF : Option Nat
  prestigeBonusF : Option Nat
  prestigeCostF : Option Nat
  bestTimedF : Option Nat
  themeF : Option String
  soundOnF : Option Bool
  musicOnF : Option Bool
  achievementsUnlockedF : Option (List AchKey)
  dailyF : Option DailyState
deriving DecidableEq, Repr

/-- The empty save: a JSON object with none of the engine fields. -/
def emptySave : SaveData :=
  ⟨none, none, none, none, none, none, none, none, none, none, none, none,
   none, none, none, none, none, none, none, none, none, none, none⟩

/-- The `Object.assign(state, s)` merge of `loadPersisted` followed by its
`prestigeCost` migration (lines 1816 and 1835): fields present in the
save overwrite the live state, then a falsy (`0`/absent-and-live-`0`)
prestige cost becomes 20000. -/
def applySave (s : GameState) (d : SaveData) : GameState :=
  let s1 : GameState :=
    { s with
      pseudo := d.pseudoF.getD s.pseudo,
      score := d.scoreF.getD s.score,
      totalClicks := d.totalClicksF.getD s.totalClicks,
      autoClickers := d.autoClickersF.getD s.autoClickers,
      autoClickCost := d.autoClickCostF.getD s.autoClickCost,
      multiplier := d.multiplierF.getD s.multiplier,
      multiplierCost := d.multiplierCostF.getD s.multiplierCost,
      critChance := d.critChanceF.getD s.critChance,
      critPower := d.critPowerF.getD s.critPower,
      critChanceCost := d.critChanceCostF.getD s.critChanceCost,
      critPowerCost := d.critPowerCostF.getD s.critPowerCost,
      tempBoostActive := d.tempBoostActiveF.getD s.tempBoostActive,
      tempBoostEnd := d.tempBoostEndF.getD s.tempBoostEnd,
      tempBoostCost := d.tempBoostCostF.getD s.tempBoostCost,
      prestigeCount := d.prestigeCountF.getD s.prestigeCount,
      prestigeBonus := d.prestigeBonusF.getD s.prestigeBonus,
      prestigeCost := d.prestigeCostF.getD s.prestigeCost,
      bestTimed := d.bestTimedF.getD s.bestTimed,
      theme := d.themeF.getD s.theme,
      soundOn := d.soundOnF.getD s.soundOn,
      musicOn := d.musicOnF.getD s.musicOn,
      achievementsUnlocked := d.achievementsUnlockedF.getD s.achievementsUnlocked,
      daily := d.dailyF.getD s.daily }
  if s1.prestigeCost = 0 then { s1 with prestigeCost := 20000 } else s1

/-- `loadPersisted()` (lines 1811-1883), engine effects only.  `stored`
is the parse of the stored string: `none` for a missing key or malformed
JSON (the `catch` swallows the parse error and the state is untouched);
`some d` for a save that parsed.  Total: loading is never fatal. -/
def loadPersisted (s : GameState) (stored : Option SaveData) : GameState :=
  match stored with
  | none => s
  | some d => applySave s d

/-! ### The persistence throttle (`throttlePersist`, lines 1794-1808)

State of the throttle: `lastPersist` is `__lastPersist`, and `pending`
is `some f` when `__pendingPersist` is set with its `setTimeout` due to
fire at absolute time `f`.  A run processes calls in time order; a due
timer fires before any later call is processed, and the returned list
collects the times of the physical `persist()` writes. -/

structure ThState where
  lastPersist : Nat
  pending : Option Nat
deriving DecidableEq, Repr

/-- Fire the pending trailing write if its due time has been reached:
the timer body clears the flag, writes, and sets `__lastPersist`. -/
def firePending (t : Nat) (st : ThState) : ThState × List Nat :=
  match st.pending with
  | some f => if f ≤ t then (⟨f, none⟩, [f]) else (st, [])
  | none => (st, [])

/-- One `throttlePersist()` call at time `t` (after firing any due
timer): an immediate write when `t - lastPersist > 1000`, else a single
trailing write is scheduled for `t + 1000` when none is pending. -/
def throttleCall (t : Nat) (st : ThState) : ThState × List Nat :=
  let p := firePending t st
  if 1000 < t - p.1.lastPersist then
    (⟨t, p.1.pending⟩, p.2 ++ [t])
  else
    match p.1.pending with
    | none => (⟨p.1.lastPersist, some (t + 1000)⟩, p.2)
    | some _ => p

/-- Process a time-ordered list of `throttlePersist()` calls, firing the
leftover timer at the end, and collect all physical write times. -/
def runThrottle : List Nat → ThState → ThState × List Nat
  | [], st =>
    match st.pending with
    | some f => (⟨f, none⟩, [f])
    | none => (st, [])
  | t :: ts, st =>
    let p := throttleCall t st
    let q := runThrottle ts p.1
    (q.1, p.2 ++ q.2)

/-! ### The three 1 Hz timers as event-loop firings

The boost-expiry evaluation lives in the auto-click interval (line
1401), the daily-challenge evaluation in its own interval (line 1975) —
both registered during the same script evaluation, auto-click first —
and the timed-mode countdown in an interval created only when the
player starts timed mode (line 1314).  Each interval fires at
`offset + 1000·k`; callbacks due earlier run earlier, and callbacks due
at the same instant run in registration order. -/

inductive TickKind where
  | boostExpiry
  | dailyEval
  | timedCountdown
deriving DecidableEq, Repr

/-- Position of each evaluation in the order asserted by the spec. -/
def tickOrderIdx : TickKind → Nat
  | .boostExpiry => 0
  | .dailyEval => 1
  | .timedCountdown => 2

/-- An interval firing: (due time, registration index, which interval). -/
abbrev Ev : Type := Nat × Nat × TickKind

/-- The first `n` firings of an interval registered at `offset` with the
given registration index. -/
def intervalEvents (offset regIdx n : Nat) (k : TickKind) : List Ev :=
  (List.range n).map fun i => (offset + 1000 * i, regIdx, k)

/-- Event-loop execution order: due time first, registration order on
ties. -/
def evR (a b : Ev) : Prop := a.1 < b.1 ∨ (a.1 = b.1 ∧ a.2.1 ≤ b.2.1)

instance : DecidableRel evR := fun a b => by unfold evR; infer_instance

/-- The execution trace of the three intervals (first `n` firings each,
offsets `o1`, `o2`, `o3`), in event-loop order. -/
def eventLoopTrace (o1 o2 o3 n : Nat) : List Ev :=
  List.insertionSort evR
    (intervalEvents o1 0 n .boostExpiry ++ intervalEvents o2 1 n .dailyEval
      ++ intervalEvents o3 2 n .timedCountdown)

/-- The 1 Hz tick window an instant belongs to. -/
def windowOf (t : Nat) : Nat := t / 1000

/-- Decides whether an execution trace respects the claimed fixed order
inside every tick window: no event is executed after an event of the
same window that the claimed order places later. -/
def noInversion : List Ev → Bool
  | [] => true
  | e :: rest =>
    (rest.all fun f =>
      !(decide (windowOf f.1 = windowOf e.1) && decide (tickOrderIdx f.2.2 < tickOrderIdx e.2.2)))
    && noInversion rest

/-! ### Helper lemmas -/

lemma unlock_shape (k : AchKey) (s : GameState) :
    ∃ a, unlockAchievement k s = { s with achievementsUnlocked := a } := by
  unfold unlockAchievement
  split
  · exact ⟨s.achievementsUnlocked, rfl⟩
  · exact ⟨k :: s.achievementsUnlocked, rfl⟩

lemma mem_unlock (k j : AchKey) (s : GameState) :
    j ∈ (unlockAchievement k s).achievementsUnlocked ↔
      j = k ∨ j ∈ s.achievementsUnlocked := by
  unfold unlockAchievement
  split
  · next hk =>
    constructor
    · exact fun h => Or.inr h
    · rintro (rfl | hj)
      · exact hk
      · exact hj
  · next hk => simp [List.mem_cons]

lemma checkUpgrade_shape (s : GameState) :
    ∃ a, checkUpgradeAchievements s = { s with achievementsUnlocked := a } := by
  simp only [checkUpgradeAchievements]
  set s1 := if 0 < s.autoClickers ∧ s.autoClickers % 10 = 0 then
      unlockAchievement (AchKey.autoMilestone s.pseudo s.autoClickers) s else s with hs1
  have hshape : ∃ a, s1 = { s with achievementsUnlocked := a } := by
    rw [hs1]
    split
    · exact unlock_shape _ _
    · exact ⟨s.achievementsUnlocked, rfl⟩
  obtain ⟨a1, h1⟩ := hshape
  split
  · obtain ⟨a2, h2⟩ := unlock_shape (AchKey.multMilestone s1.multiplier) s1
    rw [h2, h1]
    exact ⟨a2, rfl⟩
  · rw [h1]
    exact ⟨a1, rfl⟩

lemma milestoneFold_shape (l : List Nat) (s : GameState) :
    ∃ a, l.foldl (fun acc m => if acc.totalClicks = m then
        unlockAchievement (AchKey.clickMilestone acc.pseudo m) acc else acc) s
      = { s with achievementsUnlocked := a } := by
  induction l generalizing s with
  | nil => exact ⟨s.achievementsUnlocked, rfl⟩
  | cons m l ih =>
    simp only [List.foldl_cons]
    by_cases h : s.totalClicks = m
    · rw [if_pos h]
      obtain ⟨a1, h1⟩ := unlock_shape (AchKey.clickMilestone s.pseudo m) s
      rw [h1]
      obtain ⟨a2, h2⟩ := ih { s with achievementsUnlocked := a1 }
      rw [h2]
      exact ⟨a2, rfl⟩
    · rw [if_neg h]
      exact ih s

lemma milestonePass_shape (s : GameState) :
    ∃ a, milestonePass s = { s with achievementsUnlocked := a } :=
  milestoneFold_shape clickMilestones s

@[simp] lemma unlock_pseudo (k : AchKey) (s : GameState) :
    (unlockAchievement k s).pseudo = s.pseudo := by
  obtain ⟨a, ha⟩ := unlock_shape k s; rw [ha]

@[simp] lemma unlock_score (k : AchKey) (s : GameState) :
    (unlockAchievement k s).score = s.score := by
  obtain ⟨a, ha⟩ := unlock_shape k s; rw [ha]

@[simp] lemma unlock_totalClicks (k : AchKey) (s : GameState) :
    (unlockAchievement k s).totalClicks = s.totalClicks := by
  obtain ⟨a, ha⟩ := unlock_shape k s; rw [ha]

@[simp] lemma unlock_autoClickers (k : AchKey) (s : GameState) :
    (unlockAchievement k s).autoClickers = s.autoClickers := by
  obtain ⟨a, ha⟩ := unlock_shape k s; rw [ha]

@[simp] lemma unlock_autoClickCost (k : AchKey) (s : GameState) :
    (unlockAchievement k s).autoClickCost = s.autoClickCost := by
  obtain ⟨a, ha⟩ := unlock_shape k s; rw [ha]

@[simp] lemma unlock_multiplier (k : AchKey) (s : GameState) :
    (unlockAchievement k s).multiplier = s.multiplier := by
  obtain ⟨a, ha⟩ := unlock_shape k s; rw [ha]

@[simp] lemma unlock_multiplierCost (k : AchKey) (s : GameState) :
    (unlockAchievement k s).multiplierCost = s.multiplierCost := by
  obtain ⟨a, ha⟩ := unlock_shape k s; rw [ha]

@[simp] lemma unlock_critChance (k : AchKey) (s : GameState) :
    (unlockAchievement k s).critChance = s.critChance := by
  obtain ⟨a, ha⟩ := unlock_shape k s; rw [ha]

@[simp] lemma unlock_critPower (k : AchKey) (s : GameState) :
    (unlockAchievement k s).critPower = s.critPower := by
  obtain ⟨a, ha⟩ := unlock_shape k s; rw [ha]

@[simp] lemma unlock_critChanceCost (k : AchKey) (s : GameState) :
    (unlockAchievement k s).critChanceCost = s.critChanceCost := by
  obtain ⟨a, ha⟩ := unlock_shape k s; rw [ha]

@[simp] lemma unlock_critPowerCost (k : AchKey) (s : GameState) :
    (unlockAchievement k s).critPowerCost = s.critPowerCost := by
  obtain ⟨a, ha⟩ := unlock_shape k s; rw [ha]

@[simp] lemma unlock_tempBoostActive (k : AchKey) (s : GameState) :
    (unlockAchievement k s).tempBoostActive = s.tempBoostActive := by
  obtain ⟨a, ha⟩ := unlock_shape k s; rw [ha]

@[simp] lemma unlock_tempBoostEnd (k : AchKey) (s : GameState) :
    (unlockAchievement k s).tempBoostEnd = s.tempBoostEnd := by
  obtain ⟨a, ha⟩ := unlock_shape k s; rw [ha]

@[simp] lemma unlock_tempBoostCost (k : AchKey) (s : GameState) :
    (unlockAchievement k s).tempBoostCost = s.tempBoostCost := by
  obtain ⟨a, ha⟩ := unlock_shape k s; rw [ha]

@[simp] lemma unlock_prestigeCount (k : AchKey) (s : GameState) :
    (unlockAchievement k s).prestigeCount = s.prestigeCount := by
  obtain ⟨a, ha⟩ := unlock_shape k s; rw [ha]

@[simp] lemma unlock_prestigeBonus (k : AchKey) (s : GameState) :
    (unlockAchievement k s).prestigeBonus = s.prestigeBonus := by
  obtain ⟨a, ha⟩ := unlock_shape k s; rw [ha]

@[simp] lemma unlock_prestigeCost (k : AchKey) (s : GameState) :
    (unlockAchievement k s).prestigeCost = s.prestigeCost := by
  obtain ⟨a, ha⟩ := unlock_shape k s; rw [ha]

@[simp] lemma unlock_lastClickTime (k : AchKey) (s : GameState) :
    (unlockAchievement k s).lastClickTime = s.lastClickTime := by
  obtain ⟨a, ha⟩ := unlock_shape k s; rw [ha]

@[simp] lemma unlock_bestTimed (k : AchKey) (s : GameState) :
    (unlockAchievement k s).bestTimed = s.bestTimed := by
  obtain ⟨a, ha⟩ := unlock_shape k s; rw [ha]

@[simp] lemma unlock_timedActive (k : AchKey) (s : GameState) :
    (unlockAchievement k s).timedActive = s.timedActive := by
  obtain ⟨a, ha⟩ := unlock_shape k s; rw [ha]

@[simp] lemma unlock_timedTimeLeft (k : AchKey) (s : GameState) :
    (unlockAchievement k s).timedTimeLeft = s.timedTimeLeft := by
  obtain ⟨a, ha⟩ := unlock_shape k s; rw [ha]

@[simp] lemma unlock_timedScore (k : AchKey) (s : GameState) :
    (unlockAchievement k s).timedScore = s.timedScore := by
  obtain ⟨a, ha⟩ := unlock_shape k s; rw [ha]

@[simp] lemma unlock_daily (k : AchKey) (s : GameState) :
    (unlockAchievement k s).daily = s.daily := by
  obtain ⟨a, ha⟩ := unlock_shape k s; rw [ha]

@[simp] lemma unlock_theme (k : AchKey) (s : GameState) :
    (unlockAchievement k s).theme = s.theme := by
  obtain ⟨a, ha⟩ := unlock_shape k s; rw [ha]

@[simp] lemma unlock_soundOn (k : AchKey) (s : GameState) :
    (unlockAchievement k s).soundOn = s.soundOn := by
  obtain ⟨a, ha⟩ := unlock_shape k s; rw [ha]

@[simp] lemma unlock_musicOn (k : AchKey) (s : GameState) :
    (unlockAchievement k s).musicOn = s.musicOn := by
  obtain ⟨a, ha⟩ := unlock_shape k s; rw [ha]

@[simp] lemma checkUpgrade_score (s : GameState) :
    (checkUpgradeAchievements s).score = s.score := by
  obtain ⟨a, ha⟩ := checkUpgrade_shape s; rw [ha]

@[simp] lemma checkUpgrade_autoClickers (s : GameState) :
    (checkUpgradeAchievements s).autoClickers = s.autoClickers := by
  obtain ⟨a, ha⟩ := checkUpgrade_shape s; rw [ha]

@[simp] lemma checkUpgrade_autoClickCost (s : GameState) :
    (checkUpgradeAchievements s).autoClickCost = s.autoClickCost := by
  obtain ⟨a, ha⟩ := checkUpgrade_shape s; rw [ha]

@[simp] lemma checkUpgrade_multiplier (s : GameState) :
    (checkUpgradeAchievements s).multiplier = s.multiplier := by
  obtain ⟨a, ha⟩ := checkUpgrade_shape s; rw [ha]

@[simp] lemma checkUpgrade_multiplierCost (s : GameState) :
    (checkUpgradeAchievements s).multiplierCost = s.multiplierCost := by
  obtain ⟨a, ha⟩ := checkUpgrade_shape s; rw [ha]

@[simp] lemma checkUpgrade_critChance (s : GameState) :
    (checkUpgradeAchievements s).critChance = s.critChance := by
  obtain ⟨a, ha⟩ := checkUpgrade_shape s; rw [ha]

@[simp] lemma checkUpgrade_critPower (s : GameState) :
    (checkUpgradeAchievements s).critPower = s.critPower := by
  obtain ⟨a, ha⟩ := checkUpgrade_shape s; rw [ha]

@[simp] lemma checkUpgrade_critChanceCost (s : GameState) :
    (checkUpgradeAchievements s).critChanceCost = s.critChanceCost := by
  obtain ⟨a, ha⟩ := checkUpgrade_shape s; rw [ha]

@[simp] lemma checkUpgrade_critPowerCost (s : GameState) :
    (checkUpgradeAchievements s).critPowerCost = s.critPowerCost := by
  obtain ⟨a, ha⟩ := checkUpgrade_shape s; rw [ha]

@[simp] lemma checkUpgrade_tempBoostActive (s : GameState) :
    (checkUpgradeAchievements s).tempBoostActive = s.tempBoostActive := by
  obtain ⟨a, ha⟩ := checkUpgrade_shape s; rw [ha]

@[simp] lemma checkUpgrade_tempBoostEnd (s : GameState) :
    (checkUpgradeAchievements s).tempBoostEnd = s.tempBoostEnd := by
  obtain ⟨a, ha⟩ := checkUpgrade_shape s; rw [ha]

@[simp] lemma checkUpgrade_tempBoostCost (s : GameState) :
    (checkUpgradeAchievements s).tempBoostCost = s.tempBoostCost := by
  obtain ⟨a, ha⟩ := checkUpgrade_shape s; rw [ha]

@[simp] lemma checkUpgrade_daily (s : GameState) :
    (checkUpgradeAchievements s).daily = s.daily := by
  obtain ⟨a, ha⟩ := checkUpgrade_shape s; rw [ha]

@[simp] lemma checkUpgrade_timedActive (s : GameState) :
    (checkUpgradeAchievements s).timedActive = s.timedActive := by
  obtain ⟨a, ha⟩ := checkUpgrade_shape s; rw [ha]

@[simp] lemma checkUpgrade_timedScore (s : GameState) :
    (checkUpgradeAchievements s).timedScore = s.timedScore := by
  obtain ⟨a, ha⟩ := checkUpgrade_shape s; rw [ha]

@[simp] lemma milestonePass_score (s : GameState) :
    (milestonePass s).score = s.score := by
  obtain ⟨a, ha⟩ := milestonePass_shape s; rw [ha]

@[simp] lemma milestonePass_totalClicks (s : GameState) :
    (milestonePass s).totalClicks = s.totalClicks := by
  obtain ⟨a, ha⟩ := milestonePass_shape s; rw [ha]

@[simp] lemma milestonePass_multiplier (s : GameState) :
    (milestonePass s).multiplier = s.multiplier := by
  obtain ⟨a, ha⟩ := milestonePass_shape s; rw [ha]

@[simp] lemma milestonePass_critChance (s : GameState) :
    (milestonePass s).critChance = s.critChance := by
  obtain ⟨a, ha⟩ := milestonePass_shape s; rw [ha]

@[simp] lemma milestonePass_critPower (s : GameState) :
    (milestonePass s).critPower = s.critPower := by
  obtain ⟨a, ha⟩ := milestonePass_shape s; rw [ha]

@[simp] lemma milestonePass_daily (s : GameState) :
    (milestonePass s).daily = s.daily := by
  obtain ⟨a, ha⟩ := milestonePass_shape s; rw [ha]

@[simp] lemma milestonePass_timedActive (s : GameState) :
    (milestonePass s).timedActive = s.timedActive := by
  obtain ⟨a, ha⟩ := milestonePass_shape s; rw [ha]

@[simp] lemma milestonePass_timedScore (s : GameState) :
    (milestonePass s).timedScore = s.timedScore := by
  obtain ⟨a, ha⟩ := milestonePass_shape s; rw [ha]

@[simp] lemma milestonePass_tempBoostActive (s : GameState) :
    (milestonePass s).tempBoostActive = s.tempBoostActive := by
  obtain ⟨a, ha⟩ := milestonePass_shape s; rw [ha]

@[simp] lemma milestonePass_tempBoostEnd (s : GameState) :
    (milestonePass s).tempBoostEnd = s.tempBoostEnd := by
  obtain ⟨a, ha⟩ := milestonePass_shape s; rw [ha]


instance : IsTotal Ev evR := by
  constructor
  intro a b
  unfold evR
  rcases Nat.lt_trichotomy a.1 b.1 with h | h | h
  · exact Or.inl (Or.inl h)
  · rcases Nat.le_total a.2.1 b.2.1 with h2 | h2
    · exact Or.inl (Or.inr ⟨h, h2⟩)
    · exact Or.inr (Or.inr ⟨h.symm, h2⟩)
  · exact Or.inr (Or.inl h)

instance : IsTrans Ev evR := by
  constructor
  intro a b c hab hbc
  unfold evR at hab hbc ⊢
  rcases hab with h1 | ⟨h1, h1r⟩ <;> rcases hbc with h2 | ⟨h2, h2r⟩
  · exact Or.inl (h1.trans h2)
  · exact Or.inl (h2 ▸ h1)
  · exact Or.inl (h1 ▸ h2)
  · exact Or.inr ⟨h1.trans h2, h1r.trans h2r⟩

lemma eventLoopTrace_sorted (o1 o2 o3 n : Nat) :
    (eventLoopTrace o1 o2 o3 n).Sorted evR :=
  List.sorted_insertionSort evR _

/-- Every event in the trace has its registration index equal to the
position its kind holds in the claimed order. -/
lemma eventLoopTrace_regIdx (o1 o2 o3 n : Nat) (e : Ev)
    (he : e ∈ eventLoopTrace o1 o2 o3 n) : e.2.1 = tickOrderIdx e.2.2 := by
  rw [eventLoopTrace, List.mem_insertionSort] at he
  simp only [List.mem_append, intervalEvents, List.mem_map, List.mem_range] at he
  rcases he with (⟨i, _, rfl⟩ | ⟨i, _, rfl⟩) | ⟨i, _, rfl⟩ <;> rfl

@[simp] lemma checkClick_score (s : GameState) :
    (checkClickAchievements s).score = s.score := by
  simp only [checkClickAchievements]
  split <;> simp

@[simp] lemma checkClick_totalClicks (s : GameState) :
    (checkClickAchievements s).totalClicks = s.totalClicks := by
  simp only [checkClickAchievements]
  split <;> simp

@[simp] lemma checkClick_critChance (s : GameState) :
    (checkClickAchievements s).critChance = s.critChance := by
  simp only [checkClickAchievements]
  split <;> simp

@[simp] lemma checkClick_critPower (s : GameState) :
    (checkClickAchievements s).critPower = s.critPower := by
  simp only [checkClickAchievements]
  split <;> simp

@[simp] lemma checkClick_daily (s : GameState) :
    (checkClickAchievements s).daily = s.daily := by
  simp only [checkClickAchievements]
  split <;> simp

@[simp] lemma checkClick_tempBoostActive (s : GameState) :
    (checkClickAchievements s).tempBoostActive = s.tempBoostActive := by
  simp only [checkClickAchievements]
  split <;> simp

@[simp] lemma checkClick_tempBoostEnd (s : GameState) :
    (checkClickAchievements s).tempBoostEnd = s.tempBoostEnd := by
  simp only [checkClickAchievements]
  split <;> simp

lemma checkClick_timedScore (s : GameState) :
    (checkClickAchievements s).timedScore =
      s.timedScore + (if s.timedActive then s.multiplier else 0) := by
  simp only [checkClickAchievements]
  split <;> rename_i h <;> simp at h <;> simp [h]

/-! ### Claim theorems -/

/-- C1 (amended): for every invocation of the click handler, with
`isCrit` sampled as `random() < critChance`, the integer gain
`⌊multiplier · (2 if boost) · (1 + bonusPct/100) · (critPower if crit)⌋`
is added to `score` and `totalClicks` increases by exactly 1; when timed
mode is active, `timed.score` increases by the bare `multiplier`, not by
the gain.  `clickStep` is a total function, so a click never fails. -/
theorem C1_click_effect (s : GameState) (b : Bool) (t : Nat) :
    (clickStep s b t).score = s.score + clickGain s b ∧
    (clickStep s b t).totalClicks = s.totalClicks + 1 ∧
    (clickStep s b t).timedScore =
      s.timedScore + (if s.timedActive then s.multiplier else 0) := by
  refine ⟨?_, ?_, ?_⟩ <;>
    simp [clickStep, checkClick_timedScore, clickGain]

/-- A state with the temp boost and timed mode both active. -/
def boostedTimedState : GameState :=
  { initialState with tempBoostActive := true, timedActive := true }

/-- C1 counterexample: with the boost active and timed mode running, a
non-crit click computes gain 2 and adds it to `score`, but `timed.score`
grows only by the multiplier 1 — not by the same gain as the claim
states. -/
theorem C1_counterexample :
    clickGain boostedTimedState false = 2 ∧
    (clickStep boostedTimedState false 0).score = boostedTimedState.score + 2 ∧
    (clickStep boostedTimedState false 0).timedScore ≠
      boostedTimedState.timedScore + clickGain boostedTimedState false := by
  refine ⟨by decide, by decide, by decide⟩

/-- C4: on a 1 Hz daily tick with the challenge active, the target
reached, and the reward unclaimed, the tick claims the reward,
deactivates the challenge, sets `daily.expiresAt = now + 600000`, and
activates the temp boost with `tempBoostEnd = now + 600000`. -/
theorem C4_daily_success (s : GameState) (now : Nat)
    (hact : s.daily.active = true) (hscore : s.daily.target ≤ s.score)
    (hnc : s.daily.claimedToday = false) :
    (dailyTick s now).daily.claimedToday = true ∧
    (dailyTick s now).daily.active = false ∧
    (dailyTick s now).daily.expiresAt = now + 600000 ∧
    (dailyTick s now).tempBoostActive = true ∧
    (dailyTick s now).tempBoostEnd = now + 600000 := by
  simp only [dailyTick]
  rw [if_neg (by simp [hact]), if_pos ⟨hscore, hnc⟩]
  refine ⟨?_, ?_, ?_, ?_, ?_⟩ <;> simp

/-- A state ready to win the default daily challenge. -/
def dailyReadyState : GameState :=
  { initialState with
    score := 5000,
    daily := { initialState.daily with active := true } }

/-- C4 witness at a concrete state and instant. -/
theorem C4_daily_success_witness :
    (dailyTick dailyReadyState 7).daily.claimedToday = true ∧
    (dailyTick dailyReadyState 7).daily.active = false ∧
    (dailyTick dailyReadyState 7).daily.expiresAt = 7 + 600000 ∧
    (dailyTick dailyReadyState 7).tempBoostActive = true ∧
    (dailyTick dailyReadyState 7).tempBoostEnd = 7 + 600000 :=
  C4_daily_success dailyReadyState 7 (by decide) (by decide) (by decide)

/-- C5: a stored save that parses but has no prestige-cost field loads
non-fatally and leaves the in-memory prestige cost at the hard-coded
default 20000; a missing or malformed store is a silent no-op, and
`loadPersisted` is total, hence never fatal to the process. -/
theorem C5_load_missing_prestige_cost (d : SaveData)
    (hd : d.prestigeCostF = none) :
    (loadPersisted initialState (some d)).prestigeCost = 20000 ∧
    ∀ s : GameState, loadPersisted s none = s := by
  constructor
  · simp only [loadPersisted, applySave]
    split
    · rfl
    · simp [hd, initialState]
  · intro s
    rfl

/-- C5 witness: the empty save (no fields at all) and the missing-store
case, at the initial state. -/
theorem C5_load_missing_prestige_cost_witness :
    (loadPersisted initialState (some emptySave)).prestigeCost = 20000 ∧
    loadPersisted initialState none = initialState :=
  ⟨(C5_load_missing_prestige_cost emptySave rfl).1,
   (C5_load_missing_prestige_cost emptySave rfl).2 initialState⟩

/-- C2: each of the five purchases makes no state change at all when
`score < cost`; on `score ≥ cost` it subtracts the old cost, applies the
kind's effect, and advances the cost — `⌊cost·1.5⌋` for autoClick,
`⌊cost·2⌋` for multiplier/critChance/critPower, unchanged for
tempBoost. -/
theorem C2_purchase_spec (s : GameState) (t : Nat) :
    (∀ k, s.score < purchaseCost k s → purchase k s t = s) ∧
    (s.autoClickCost ≤ s.score →
      (purchase .autoClick s t).score = s.score - s.autoClickCost ∧
      (purchase .autoClick s t).autoClickers = s.autoClickers + 1 ∧
      (purchase .autoClick s t).autoClickCost = s.autoClickCost * 3 / 2) ∧
    (s.multiplierCost ≤ s.score →
      (purchase .multiplierUp s t).score = s.score - s.multiplierCost ∧
      (purchase .multiplierUp s t).multiplier = s.multiplier + 1 ∧
      (purchase .multiplierUp s t).multiplierCost = s.multiplierCost * 2) ∧
    (s.critChanceCost ≤ s.score →
      (purchase .critChanceUp s t).score = s.score - s.critChanceCost ∧
      (purchase .critChanceUp s t).critChance = min (1/2) (s.critChance + 1/100) ∧
      (purchase .critChanceUp s t).critChanceCost = s.critChanceCost * 2) ∧
    (s.critPowerCost ≤ s.score →
      (purchase .critPowerUp s t).score = s.score - s.critPowerCost ∧
      (purchase .critPowerUp s t).critPower = min 50 (s.critPower + 5) ∧
      (purchase .critPowerUp s t).critPowerCost = s.critPowerCost * 2) ∧
    (s.tempBoostCost ≤ s.score →
      (purchase .tempBoost s t).score = s.score - s.tempBoostCost ∧
      (purchase .tempBoost s t).tempBoostActive = true ∧
      (purchase .tempBoost s t).tempBoostEnd = t + 30000 ∧
      (purchase .tempBoost s t).tempBoostCost = s.tempBoostCost) := by
  refine ⟨?_, ?_, ?_, ?_, ?_, ?_⟩
  · intro k h
    cases k <;> simp only [purchase, purchaseCost] at h ⊢ <;> rw [if_neg (by omega)]
  all_goals intro h
  all_goals simp [purchase, h]

/-- A state rich enough for every purchase. -/
def richState : GameState := { initialState with score := 1000000 }

/-- C2 witness: the failing purchase at the initial state (score 0) and
each succeeding purchase at a rich state. -/
theorem C2_purchase_spec_witness :
    purchase .autoClick initialState 0 = initialState ∧
    (purchase .autoClick richState 0).score = 999500 ∧
    (purchase .autoClick richState 0).autoClickers = 1 ∧
    (purchase .autoClick richState 0).autoClickCost = 750 ∧
    (purchase .multiplierUp richState 0).multiplier = 2 ∧
    (purchase .multiplierUp richState 0).multiplierCost = 2000 ∧
    (purchase .critChanceUp richState 0).critChance = 3/100 ∧
    (purchase .critChanceUp richState 0).critChanceCost = 4000 ∧
    (purchase .critPowerUp richState 0).critPower = 10 ∧
    (purchase .critPowerUp richState 0).critPowerCost = 6000 ∧
    (purchase .tempBoost richState 0).tempBoostActive = true ∧
    (purchase .tempBoost richState 0).tempBoostEnd = 30000 ∧
    (purchase .tempBoost richState 0).tempBoostCost = 300 := by
  obtain ⟨hfail0, _, _, _, _, _⟩ := C2_purchase_spec initialState 0
  obtain ⟨_, hA, hM, hC, hP, hT⟩ := C2_purchase_spec richState 0
  refine ⟨hfail0 .autoClick (by decide), ?_, ?_, ?_, ?_, ?_, ?_, ?_, ?_, ?_, ?_, ?_, ?_⟩
  · rw [(hA (by decide)).1]; decide
  · rw [(hA (by decide)).2.1]; decide
  · rw [(hA (by decide)).2.2]; decide
  · rw [(hM (by decide)).2.1]; decide
  · rw [(hM (by decide)).2.2]; decide
  · rw [(hC (by decide)).2.1]; norm_num [richState, initialState, min_def]
  · rw [(hC (by decide)).2.2]; decide
  · rw [(hP (by decide)).2.1]; decide
  · rw [(hP (by decide)).2.2]; decide
  · exact (hT (by decide)).2.1
  · rw [(hT (by decide)).2.2.1]
  · rw [(hT (by decide)).2.2.2]; decide

/-- C3: with a positive prestige cost (it starts at 20000 and only
doubles), a prestige with `score ≥ cost` and a passed confirmation gate
deducts exactly the old cost, increments the count, adds 10 to the
bonus, doubles the cost, and resets the economy to the post-prestige
baseline; with `score < cost` nothing changes. -/
theorem C3_prestige_spec (s : GameState) (c : Bool) (hpos : 0 < s.prestigeCost) :
    (s.score < s.prestigeCost → doPrestige s c = s) ∧
    (s.prestigeCost ≤ s.score → c = true →
      (doPrestige s c).score = s.score - s.prestigeCost ∧
      (doPrestige s c).prestigeCount = s.prestigeCount + 1 ∧
      (doPrestige s c).prestigeBonus = s.prestigeBonus + 10 ∧
      (doPrestige s c).prestigeCost = s.prestigeCost * 2 ∧
      (doPrestige s c).totalClicks = 0 ∧
      (doPrestige s c).autoClickers = 0 ∧
      (doPrestige s c).multiplier = 1 ∧
      (doPrestige s c).multiplierCost = 1000 ∧
      (doPrestige s c).critChance = 1/10 ∧
      (doPrestige s c).critPower = 10 ∧
      (doPrestige s c).critChanceCost = 2000 ∧
      (doPrestige s c).critPowerCost = 3000 ∧
      (doPrestige s c).tempBoostActive = false) := by
  have hne : ¬s.prestigeCost = 0 := by omega
  constructor
  · intro h
    simp only [doPrestige, if_neg hne]
    rw [if_pos h]
  · intro h1 h2
    subst h2
    simp only [doPrestige, if_neg hne]
    rw [if_neg (by omega)]
    simp

/-- A state able to afford the first prestige. -/
def prestigeReadyState : GameState := { initialState with score := 20000 }

/-- C3 witness: a failing prestige one point short, and the first
successful prestige from 20000 points. -/
theorem C3_prestige_spec_witness :
    doPrestige { initialState with score := 19999 } true
      = { initialState with score := 19999 } ∧
    (doPrestige prestigeReadyState true).score = 0 ∧
    (doPrestige prestigeReadyState true).prestigeCount = 1 ∧
    (doPrestige prestigeReadyState true).prestigeBonus = 10 ∧
    (doPrestige prestigeReadyState true).prestigeCost = 40000 ∧
    (doPrestige prestigeReadyState true).multiplier = 1 ∧
    (doPrestige prestigeReadyState true).critChance = 1/10 ∧
    (doPrestige prestigeReadyState true).tempBoostActive = false := by
  obtain ⟨hf2, _⟩ := C3_prestige_spec { initialState with score := 19999 } true (by decide)
  obtain ⟨_, hs⟩ := C3_prestige_spec prestigeReadyState true (by decide)
  obtain ⟨e1, e2, e3, e4, _, _, e7, _, e9, _, _, _, e13⟩ := hs (by decide) rfl
  refine ⟨hf2 (by decide), ?_, ?_, ?_, ?_, e7, e9, e13⟩
  · rw [e1]; decide
  · rw [e2]; decide
  · rw [e3]; decide
  · rw [e4]; decide

/-- C10: apart from the fields it explicitly resets and the single new
prestige achievement, a successful prestige leaves every other state
field — pseudo, bestTimed, the timed-mode fields, the daily-challenge
fields, the temp-boost cost, theme, sound settings, and the last click
time — unchanged. -/
theorem C10_prestige_frame (s : GameState) (hpos : 0 < s.prestigeCost)
    (hscore : s.prestigeCost ≤ s.score) :
    (doPrestige s true).pseudo = s.pseudo ∧
    (doPrestige s true).bestTimed = s.bestTimed ∧
    (doPrestige s true).timedActive = s.timedActive ∧
    (doPrestige s true).timedTimeLeft = s.timedTimeLeft ∧
    (doPrestige s true).timedScore = s.timedScore ∧
    (doPrestige s true).daily = s.daily ∧
    (doPrestige s true).tempBoostCost = s.tempBoostCost ∧
    (doPrestige s true).theme = s.theme ∧
    (doPrestige s true).soundOn = s.soundOn ∧
    (doPrestige s true).musicOn = s.musicOn ∧
    (doPrestige s true).lastClickTime = s.lastClickTime ∧
    ∀ k, (k ∈ (doPrestige s true).achievementsUnlocked ↔
      k = AchKey.prestigeMark (s.prestigeCount + 1) ∨ k ∈ s.achievementsUnlocked) := by
  have hne : ¬s.prestigeCost = 0 := by omega
  simp only [doPrestige, if_neg hne]
  rw [if_neg (by omega)]
  simp [mem_unlock]

/-- C10 witness: the first prestige from 20000 points keeps the
out-of-scope fields and records the prestige achievement. -/
theorem C10_prestige_frame_witness :
    (doPrestige prestigeReadyState true).theme = "normal" ∧
    (doPrestige prestigeReadyState true).daily = initialState.daily ∧
    (doPrestige prestigeReadyState true).tempBoostCost = 300 ∧
    (doPrestige prestigeReadyState true).bestTimed = 0 ∧
    AchKey.prestigeMark 1 ∈ (doPrestige prestigeReadyState true).achievementsUnlocked := by
  obtain ⟨h1, h2, _, _, _, h6, h7, h8, _, _, _, h12⟩ :=
    C10_prestige_frame prestigeReadyState (by decide) (by decide)
  refine ⟨?_, ?_, ?_, ?_, ?_⟩
  · rw [h8]; decide
  · rw [h6]; decide
  · rw [h7]; decide
  · rw [h2]; decide
  · exact (h12 (AchKey.prestigeMark 1)).2 (Or.inl (by decide))

/-! ### Frame lemmas for the reachability invariants -/

lemma clickStep_frame (s : GameState) (b : Bool) (t : Nat) :
    (clickStep s b t).critChance = s.critChance ∧
    (clickStep s b t).critPower = s.critPower ∧
    (clickStep s b t).daily = s.daily := by
  refine ⟨?_, ?_, ?_⟩ <;> simp [clickStep]

lemma autoTick_frame (s : GameState) (now : Nat) :
    (autoTick s now).critChance = s.critChance ∧
    (autoTick s now).critPower = s.critPower ∧
    (autoTick s now).daily = s.daily := by
  refine ⟨?_, ?_, ?_⟩ <;> (simp only [autoTick]; split_ifs <;> simp)

lemma timedTick_frame (s : GameState) :
    (timedTick s).critChance = s.critChance ∧
    (timedTick s).critPower = s.critPower ∧
    (timedTick s).daily = s.daily := by
  refine ⟨?_, ?_, ?_⟩ <;> (simp only [timedTick]; split_ifs <;> simp)

lemma startTimed_frame (s : GameState) :
    (startTimed s).critChance = s.critChance ∧
    (startTimed s).critPower = s.critPower ∧
    (startTimed s).daily = s.daily := by
  refine ⟨?_, ?_, ?_⟩ <;> (simp only [startTimed]; split_ifs <;> simp)

lemma dailyTick_crit (s : GameState) (now : Nat) :
    (dailyTick s now).critChance = s.critChance ∧
    (dailyTick s now).critPower = s.critPower := by
  refine ⟨?_, ?_⟩ <;> (simp only [dailyTick]; split_ifs <;> simp)

lemma startDaily_crit (s : GameState) (nd : Bool) (r1 r2 : Nat) (st : Bool) (now : Nat) :
    (startDaily s nd r1 r2 st now).critChance = s.critChance ∧
    (startDaily s nd r1 r2 st now).critPower = s.critPower := by
  refine ⟨?_, ?_⟩ <;> (simp only [startDaily, ensureDailyNew]; split_ifs <;> simp)

lemma purchase_daily (k : PKind) (s : GameState) (t : Nat) :
    (purchase k s t).daily = s.daily := by
  cases k <;> (simp only [purchase]; split_ifs <;> simp)

lemma doPrestige_daily (s : GameState) (c : Bool) :
    (doPrestige s c).daily = s.daily := by
  simp only [doPrestige]
  split_ifs <;> simp

/-- The crit caps invariant is preserved by every engine operation. -/
lemma critInv_step (o : Op) (s : GameState)
    (h : s.critChance ≤ 1/2 ∧ s.critPower ≤ 50) :
    (step o s).critChance ≤ 1/2 ∧ (step o s).critPower ≤ 50 := by
  cases o with
  | click b t =>
    rw [step, (clickStep_frame s b t).1, (clickStep_frame s b t).2.1]
    exact h
  | buy k t =>
    cases k
    case autoClick =>
      rw [step]
      simp only [purchase]
      split_ifs <;> simpa using h
    case multiplierUp =>
      rw [step]
      simp only [purchase]
      split_ifs <;> simpa using h
    case critChanceUp =>
      rw [step]
      simp only [purchase]
      split_ifs with hc
      · constructor
        · simp
        · simpa using h.2
      · exact h
    case critPowerUp =>
      rw [step]
      simp only [purchase]
      split_ifs with hc
      · constructor
        · simpa using h.1
        · simp
      · exact h
    case tempBoost =>
      rw [step]
      simp only [purchase]
      split_ifs <;> simpa using h
  | prestige c =>
    rw [step]
    simp only [doPrestige]
    split_ifs <;> try exact h
    all_goals exact ⟨by simp; norm_num, by simp⟩
  | autoT t =>
    rw [step, (autoTick_frame s t).1, (autoTick_frame s t).2.1]
    exact h
  | dailyT t =>
    rw [step, (dailyTick_crit s t).1, (dailyTick_crit s t).2]
    exact h
  | timedT =>
    rw [step, (timedTick_frame s).1, (timedTick_frame s).2.1]
    exact h
  | startT =>
    rw [step, (startTimed_frame s).1, (startTimed_frame s).2.1]
    exact h
  | startD nd r1 r2 st t =>
    rw [step, (startDaily_crit s nd r1 r2 st t).1, (startDaily_crit s nd r1 r2 st t).2]
    exact h
  | ensureD r1 r2 =>
    rw [step]
    simp only [ensureDailyNew]
    exact h

/-- The guard cascade of `startDaily` preserves the daily-flag
disjunction for any base state. -/
lemma startDailyGuard_ok (s0 : GameState) (st : Bool) (now : Nat)
    (h : s0.daily.active = false ∨ s0.daily.claimedToday = false) :
    ((if st = true then s0
      else if s0.daily.active = true then s0
      else if s0.daily.claimedToday = true then s0
      else unlockAchievement AchKey.dailyStarted
        { s0 with daily :=
          { s0.daily with active := true, expiresAt := now + 600000 } }).daily.active = false ∨
     (if st = true then s0
      else if s0.daily.active = true then s0
      else if s0.daily.claimedToday = true then s0
      else unlockAchievement AchKey.dailyStarted
        { s0 with daily :=
          { s0.daily with active := true, expiresAt := now + 600000 } }).daily.claimedToday = false) := by
  split_ifs with g1 g2 g3
  · exact h
  · exact h
  · exact h
  · right
    simpa using g3

/-- The daily flags never end up both set, across every operation. -/
lemma dailyOk_step (o : Op) (s : GameState)
    (h : s.daily.active = false ∨ s.daily.claimedToday = false) :
    (step o s).daily.active = false ∨ (step o s).daily.claimedToday = false := by
  cases o with
  | click b t =>
    rw [step, (clickStep_frame s b t).2.2]
    exact h
  | buy k t =>
    rw [step, purchase_daily]
    exact h
  | prestige c =>
    rw [step, doPrestige_daily]
    exact h
  | autoT t =>
    rw [step, (autoTick_frame s t).2.2]
    exact h
  | dailyT t =>
    rw [step]
    simp only [dailyTick]
    split_ifs with h1 h2 h3
    · exact h
    · left
      simp
    · left
      simp
    · exact h
  | timedT =>
    rw [step, (timedTick_frame s).2.2]
    exact h
  | startT =>
    rw [step, (startTimed_frame s).2.2]
    exact h
  | startD nd r1 r2 st t =>
    have hs0 : (if nd = true then ensureDailyNew s r1 r2 else s).daily.active = false ∨
        (if nd = true then ensureDailyNew s r1 r2 else s).daily.claimedToday = false := by
      split
      · right
        simp [ensureDailyNew]
      · exact h
    exact startDailyGuard_ok (if nd = true then ensureDailyNew s r1 r2 else s) st t hs0
  | ensureD r1 r2 =>
    rw [step]
    right
    simp [ensureDailyNew]

/-- C9 (implicit invariant): from the default state, after any sequence
of engine operations — in particular startDaily, the 1 Hz daily tick,
and daily regeneration — `daily.active` and `daily.claimedToday` are
never both true: every reachable state has one of them false. -/
theorem C9_daily_flags_invariant (ops : List Op) :
    (runOps ops initialState).daily.active = false ∨
    (runOps ops initialState).daily.claimedToday = false := by
  suffices hstep : ∀ s, (s.daily.active = false ∨ s.daily.claimedToday = false) →
      ((runOps ops s).daily.active = false ∨ (runOps ops s).daily.claimedToday = false) by
    exact hstep initialState (Or.inl rfl)
  induction ops with
  | nil => exact fun s h => h
  | cons o ops ih => exact fun s h => ih (step o s) (dailyOk_step o s h)

/-- C6: from the default state, after any sequence of engine operations
(in particular any sequence of purchases) `critChance ≤ 0.5` and
`critPower ≤ 50` always hold; and a critChance or critPower purchase
made at the cap is still accepted — the cost is charged and the next
cost doubles — while the stat stays clamped at its cap. -/
theorem C6_crit_caps :
    (∀ ops : List Op,
      (runOps ops initialState).critChance ≤ 1/2 ∧
      (runOps ops initialState).critPower ≤ 50) ∧
    (∀ (s : GameState) (t : Nat), s.critChance = 1/2 → s.critChanceCost ≤ s.score →
      (purchase .critChanceUp s t).critChance = 1/2 ∧
      (purchase .critChanceUp s t).score = s.score - s.critChanceCost ∧
      (purchase .critChanceUp s t).critChanceCost = s.critChanceCost * 2) ∧
    (∀ (s : GameState) (t : Nat), s.critPower = 50 → s.critPowerCost ≤ s.score →
      (purchase .critPowerUp s t).critPower = 50 ∧
      (purchase .critPowerUp s t).score = s.score - s.critPowerCost ∧
      (purchase .critPowerUp s t).critPowerCost = s.critPowerCost * 2) := by
  refine ⟨?_, ?_, ?_⟩
  · intro ops
    suffices hstep : ∀ s, (s.critChance ≤ 1/2 ∧ s.critPower ≤ 50) →
        ((runOps ops s).critChance ≤ 1/2 ∧ (runOps ops s).critPower ≤ 50) by
      refine hstep initialState ⟨?_, ?_⟩ <;> norm_num [initialState]
    induction ops with
    | nil => exact fun s h => h
    | cons o ops ih => exact fun s h => ih (step o s) (critInv_step o s h)
  · intro s t h1 h2
    refine ⟨?_, ?_, ?_⟩ <;> simp [purchase, h1, h2]
  · intro s t h1 h2
    refine ⟨?_, ?_, ?_⟩ <;> simp [purchase, h1, h2]

/-- A state sitting exactly at the crit-chance cap. -/
def cappedChanceState : GameState :=
  { initialState with score := 2000, critChance := 1/2 }

/-- A state sitting exactly at the crit-power cap. -/
def cappedPowerState : GameState :=
  { initialState with score := 3000, critPower := 50 }

/-- C6 witness: a concrete purchase sequence stays under the caps, and
purchases at each cap are still charged while the stat stays capped. -/
theorem C6_crit_caps_witness :
    ((runOps [Op.buy .critChanceUp 0] initialState).critChance ≤ 1/2 ∧
      (runOps [Op.buy .critChanceUp 0] initialState).critPower ≤ 50) ∧
    ((purchase .critChanceUp cappedChanceState 0).critChance = 1/2 ∧
      (purchase .critChanceUp cappedChanceState 0).score = 0 ∧
      (purchase .critChanceUp cappedChanceState 0).critChanceCost = 4000) ∧
    ((purchase .critPowerUp cappedPowerState 0).critPower = 50 ∧
      (purchase .critPowerUp cappedPowerState 0).score = 0 ∧
      (purchase .critPowerUp cappedPowerState 0).critPowerCost = 6000) := by
  obtain ⟨hall, hcap1, hcap2⟩ := C6_crit_caps
  obtain ⟨e1, e2, e3⟩ := hcap1 cappedChanceState 0 (by rfl) (by decide)
  obtain ⟨f1, f2, f3⟩ := hcap2 cappedPowerState 0 (by decide) (by decide)
  refine ⟨hall [Op.buy .critChanceUp 0], ⟨e1, ?_, ?_⟩, ⟨f1, ?_, ?_⟩⟩
  · rw [e2]; decide
  · rw [e3]; decide
  · rw [f2]; decide
  · rw [f3]; decide

/-- C7 counterexample: from an idle throttle, calls at 2000, 2500 and
3001 produce physical writes at 2000, 3001 and 3500.  The call at 2500
schedules a trailing write for 3500 (request + 1000, not the window's
end 3000), the call at 3001 writes immediately because the window since
2000 has elapsed, and the pending timer is never cancelled — so the
writes at 3001 and 3500 land 499 ms apart, two physical writes inside
one 1000 ms window. -/
theorem C7_counterexample :
    (runThrottle [2000, 2500, 3001] ⟨0, none⟩).2 = [2000, 3001, 3500] ∧
    3500 - 3001 < 1000 :=
  ⟨by decide, by decide⟩

/-- C7 (amended): a `throttlePersist` call arriving more than 1000 ms
after the last write performs exactly one immediate write; a call inside
the window schedules exactly one trailing write for 1000 ms after that
call when none is pending, and schedules nothing further when one is
already pending.  (The stronger once-per-1000ms bound on physical writes
fails: an immediate write can land between the scheduling and the firing
of a trailing write.) -/
theorem C7_throttle_amended (t : Nat) (st : ThState) :
    (st.pending = none → t - st.lastPersist ≤ 1000 →
      (throttleCall t st).2 = [] ∧
      (throttleCall t st).1.pending = some (t + 1000) ∧
      (throttleCall t st).1.lastPersist = st.lastPersist) ∧
    (st.pending = none → 1000 < t - st.lastPersist →
      (throttleCall t st).2 = [t] ∧
      (throttleCall t st).1.lastPersist = t ∧
      (throttleCall t st).1.pending = none) ∧
    (∀ f, st.pending = some f → t < f → t - st.lastPersist ≤ 1000 →
      (throttleCall t st).2 = [] ∧ (throttleCall t st).1 = st) := by
  refine ⟨?_, ?_, ?_⟩
  · intro hp hw
    have hfp : firePending t st = (st, []) := by
      simp [firePending, hp]
    simp only [throttleCall, hfp]
    rw [if_neg (by omega)]
    simp [hp]
  · intro hp hw
    have hfp : firePending t st = (st, []) := by
      simp [firePending, hp]
    simp only [throttleCall, hfp]
    rw [if_pos (by omega)]
    simp [hp]
  · intro f hf hlt hw
    have hfp : firePending t st = (st, []) := by
      simp only [firePending, hf]
      rw [if_neg (by omega)]
    simp only [throttleCall, hfp]
    rw [if_neg (by omega)]
    simp [hf]

/-- C7 witness: a call inside the window schedules the trailing write,
a call after the window writes immediately, and a call with a pending
timer schedules nothing. -/
theorem C7_throttle_amended_witness :
    ((throttleCall 500 ⟨0, none⟩).2 = [] ∧
      (throttleCall 500 ⟨0, none⟩).1.pending = some (500 + 1000) ∧
      (throttleCall 500 ⟨0, none⟩).1.lastPersist = 0) ∧
    ((throttleCall 2000 ⟨0, none⟩).2 = [2000] ∧
      (throttleCall 2000 ⟨0, none⟩).1.lastPersist = 2000 ∧
      (throttleCall 2000 ⟨0, none⟩).1.pending = none) ∧
    ((throttleCall 600 ⟨0, some 1500⟩).2 = [] ∧
      (throttleCall 600 ⟨0, some 1500⟩).1 = ⟨0, some 1500⟩) :=
  ⟨(C7_throttle_amended 500 ⟨0, none⟩).1 rfl (by decide),
   (C7_throttle_amended 2000 ⟨0, none⟩).2.1 rfl (by decide),
   (C7_throttle_amended 600 ⟨0, some 1500⟩).2.2 1500 rfl (by decide) (by decide)⟩

/-- C8 counterexample: the three evaluations live in three independent
1 Hz intervals, not one shared tick.  With the boost-expiry and daily
intervals registered at 500 (in that order, as in the script) and the
timed-mode interval created at 3200 (when the player starts timed mode),
the timed countdown due at 3200 executes before the boost-expiry and
daily evaluations due at 3500 of the same wall-clock second window, so
the claimed fixed order expiry → daily → timed within each tick fails. -/
theorem C8_counterexample :
    noInversion (eventLoopTrace 500 500 3200 5) = false := by
  decide

/-- C8 (amended): callbacks due at the same instant execute in
registration order, and the registration indices match the claimed
order, so among simultaneously due evaluations the order expiry → daily
→ timed does hold; in particular a daily-challenge success evaluated
after the boost expiry at the same instant can re-activate the boost
flag the expiry step just cleared.  No ordering holds across evaluations
of the same second that are due at different instants (see the
counterexample). -/
theorem C8_tick_order_amended :
    (∀ (o1 o2 o3 n i j : Nat) (hi : i < (eventLoopTrace o1 o2 o3 n).length)
        (hj : j < (eventLoopTrace o1 o2 o3 n).length), i < j →
        ((eventLoopTrace o1 o2 o3 n).get ⟨i, hi⟩).1 =
          ((eventLoopTrace o1 o2 o3 n).get ⟨j, hj⟩).1 →
        tickOrderIdx ((eventLoopTrace o1 o2 o3 n).get ⟨i, hi⟩).2.2 ≤
          tickOrderIdx ((eventLoopTrace o1 o2 o3 n).get ⟨j, hj⟩).2.2) ∧
    (∀ (s : GameState) (t : Nat), s.autoClickers = 0 → s.tempBoostActive = true →
        s.tempBoostEnd < t → s.daily.active = true → s.daily.claimedToday = false →
        s.daily.target ≤ s.score →
        (autoTick s t).tempBoostActive = false ∧
        (dailyTick (autoTick s t) t).tempBoostActive = true) := by
  constructor
  · intro o1 o2 o3 n i j hi hj hij htime
    have hrel := (eventLoopTrace_sorted o1 o2 o3 n).rel_get_of_lt
      (show (⟨i, hi⟩ : Fin (eventLoopTrace o1 o2 o3 n).length) < ⟨j, hj⟩ from hij)
    have hregi := eventLoopTrace_regIdx o1 o2 o3 n _ (List.get_mem _ i hi)
    have hregj := eventLoopTrace_regIdx o1 o2 o3 n _ (List.get_mem _ j hj)
    rcases hrel with hlt | ⟨heq, hle⟩
    · omega
    · rw [← hregi, ← hregj]
      exact hle
  · intro s t h0 hb he hd hc ht
    have hauto : autoTick s t =
        unlockAchievement AchKey.boostEnd { s with tempBoostActive := false } := by
      simp only [autoTick, h0, lt_self_iff_false, if_false]
      rw [if_pos ⟨hb, he⟩]
    constructor
    · rw [hauto]
      simp
    · rw [hauto]
      simp only [dailyTick, unlock_daily, unlock_score]
      rw [if_neg (by simp [hd]), if_pos ⟨by simpa using ht, by simpa using hc⟩]
      simp

/-- A state whose boost has expired while the daily challenge stands
won but unclaimed. -/
def expiredBoostDailyState : GameState :=
  { initialState with
    score := 5000,
    tempBoostActive := true,
    tempBoostEnd := 5,
    daily := { initialState.daily with active := true } }

/-- C8 witness: in a concrete trace two same-instant events execute in
the claimed relative order, and a concrete tick clears then re-activates
the boost flag via expiry followed by daily success. -/
theorem C8_tick_order_amended_witness :
    (tickOrderIdx ((eventLoopTrace 500 500 3200 2).get ⟨0, by decide⟩).2.2 ≤
      tickOrderIdx ((eventLoopTrace 500 500 3200 2).get ⟨1, by decide⟩).2.2) ∧
    ((autoTick expiredBoostDailyState 10).tempBoostActive = false ∧
      (dailyTick (autoTick expiredBoostDailyState 10) 10).tempBoostActive = true) :=
  ⟨C8_tick_order_amended.1 500 500 3200 2 0 1 (by decide) (by decide) (by decide) (by decide),
   C8_tick_order_amended.2 expiredBoostDailyState 10 rfl rfl (by decide) rfl rfl (by decide)⟩
